import Mathlib

/-!
Verification of the CardMint camera-wrapper variants against their
natural-language specification.

The repository wraps the Sony Camera Remote SDK six times with differing
completeness.  This file shallowly embeds the wrapper code that the claims
cite:

* `src/src/camera/sony-camera-production.cpp` — `ProductionCamera` and its
  Node wrapper (`prod…` definitions, `initSdkOnce`, `runInSdkContext`);
* `src/CardMint/src/camera/camera-wrapper.cpp` — `CameraWrapper::Impl`
  (`impl…` definitions);
* `src/CardMint/src/camera/camera-wrapper-simple.cpp` — the simplified
  `CameraWrapper::Impl` (`simpleImpl…` definitions);
* `src/CardMint/src/camera/sony-cli-wrapper.cpp` — `CliCamera`
  (`cli…` definitions);
* `src/CardMint/src/camera/sony-sdk-wrapper.cpp` — `SonyCameraWrapper`
  (`sdkWrap…` definitions);
* `src/CardMint/src/camera/simple-sony-binding.cpp` — `SimpleCamera`
  (`simpleCam…` definitions);
* `src/CardMint/src/camera/sony-camera-binding.cpp` — `SonyCamera`
  (`binding…` definitions).

Vendor SDK calls are modelled as an explicit trace of `VendorCall` actions,
vendor-owned enumeration memory as list identifiers, and retained
camera-object-info pointers as `Ref` values that are either owned copies or
aliases into a numbered vendor list.  Outcomes of vendor calls
(enumeration results, connect results, command results) are inputs to the
embedded functions, since the C++ receives them from the closed-source SDK.
-/

namespace CardMint

/-- Parameter of the vendor shutter-release command
(`CrCommandParam_Down` / `CrCommandParam_Up`). -/
inductive CrCommandParam where
  | down
  | up
deriving DecidableEq, Repr

/-- Fields of one vendor camera-object-info entry that the wrappers read
(`GetName`, `GetModel`, `GetId`, `GetConnectionTypeName`). -/
structure CamFields where
  name : String
  model : String
  id : String
  connectionTypeName : String
deriving DecidableEq, Repr

/-- A retained camera-object-info reference.  `vendorEntry lid i` is the raw
pointer returned by `GetCameraObjectInfo(i)` on the vendor enumeration list
numbered `lid` — memory owned by that list.  `ownedCopy f` is an object
created by `SDK::CreateCameraObjectInfo` from copied fields, owned by the
wrapper. -/
inductive Ref where
  | vendorEntry (lid : Nat) (i : Nat)
  | ownedCopy (fields : CamFields)
deriving DecidableEq, Repr

/-- One call into the vendor SDK (or a wait), recorded in order. -/
inductive VendorCall where
  | enumObjects
  | getCameraObjectInfo (lid : Nat) (i : Nat)
  | createCameraObjectInfo (fields : CamFields)
  | releaseList (lid : Nat)
  | connectDevice (info : Ref)
  | disconnectDevice (handle : Nat)
  | releaseDevice (handle : Nat)
  | sendCommand (handle : Nat) (param : CrCommandParam)
  | sleep (ms : Nat)
deriving DecidableEq, Repr

/-- Outcome of `SDK::EnumCameraObjects`: `none` when the call fails or the
returned list pointer is null; `some (lid, entries)` a fresh vendor-owned
list numbered `lid` holding `entries`. -/
def EnumOutcome : Type := Option (Nat × List CamFields)

/-- State of the resolved JavaScript promise a NAPI capture method returns. -/
inductive PromiseState where
  | pending
  | resolved (path : String)
  | rejected (msg : String)
deriving DecidableEq, Repr

/-! ## ProductionCamera (sony-camera-production.cpp) -/

/-- Member state of `ProductionCamera`
(`m_info`, `m_handle`, `m_connected`, `m_last_image_path`). -/
structure ProdCamState where
  m_info : Option Ref
  m_handle : Nat
  m_connected : Bool
  m_last_image_path : String
deriving DecidableEq, Repr

/-- Fresh `ProductionCamera` member state. -/
def prodInit : ProdCamState :=
  { m_info := none, m_handle := 0, m_connected := false, m_last_image_path := "" }

/-- `ProductionCamera::listDevices` (lines 115-149), the body run inside
`runInSdkContext`.  For each entry the model and id strings are copied into
the returned vector before `camera_list->Release()`; on enumeration failure
or a null list an empty vector is returned with no error. -/
def prodListDevices (enum : EnumOutcome) :
    List (String × String) × List VendorCall :=
  match enum with
  | none => ([], [.enumObjects])
  | some (lid, entries) =>
      (entries.map fun c => (c.model, c.id),
       [VendorCall.enumObjects]
         ++ (entries.enum.map fun p => VendorCall.getCameraObjectInfo lid p.1)
         ++ [VendorCall.releaseList lid])

/-- `ProductionCameraWrapper::ListDevices` (lines 348-363): builds the JS
array from `listDevices`; it has no throw path, so the result is always
`Except.ok`. -/
def prodWrapperListDevices (enum : EnumOutcome) :
    Except String (List (String × String)) :=
  Except.ok (prodListDevices enum).1

/-- `ProductionCamera::connect` (lines 151-194), the body run inside
`runInSdkContext`.  `connectRes` is the outcome of `SDK::Connect`:
`some h` when `CR_SUCCEEDED` with handle `h`, `none` on failure.
Note: `m_info` is assigned the raw `GetCameraObjectInfo(0)` pointer and the
enumeration list is then released, so the retained `m_info` aliases
released vendor list memory. -/
def prodConnect (enum : EnumOutcome) (connectRes : Option Nat)
    (s : ProdCamState) : Bool × ProdCamState × List VendorCall :=
  if s.m_connected then (true, s, [])
  else
    match enum with
    | none => (false, s, [.enumObjects])
    | some (lid, entries) =>
        if entries.isEmpty then
          (false, s, [.enumObjects, .releaseList lid])
        else
          let info := Ref.vendorEntry lid 0
          let s1 := { s with m_info := some info }
          let t := [VendorCall.enumObjects, VendorCall.getCameraObjectInfo lid 0,
                    VendorCall.releaseList lid, VendorCall.connectDevice info]
          match connectRes with
          | some h => (true, { s1 with m_connected := true, m_handle := h }, t)
          | none => (false, s1, t)

/-- `ProductionCamera::disconnect` (lines 196-208), the body run inside
`runInSdkContext`: only when `m_connected && m_handle` does it call
`SDK::Disconnect` and `SDK::ReleaseDevice` and zero the state, returning
`true`; otherwise it does nothing and returns `false`. -/
def prodDisconnect (s : ProdCamState) : Bool × ProdCamState × List VendorCall :=
  if s.m_connected ∧ s.m_handle ≠ 0 then
    (true, { s with m_handle := 0, m_connected := false },
     [.disconnectDevice s.m_handle, .releaseDevice s.m_handle])
  else (false, s, [])

/-- `ProductionCamera::capture` (lines 210-231), the body run inside
`runInSdkContext`: guard on `m_connected` and `m_handle`, then shutter
down, a literal 35 ms sleep, shutter up, then a timestamp-derived
`m_last_image_path`.  `ts` is the wall-clock time observed by the call.
The function has no duration parameter: the 35 is a source literal. -/
def prodCapture (ts : Nat) (s : ProdCamState) :
    Bool × ProdCamState × List VendorCall :=
  if s.m_connected ∧ s.m_handle ≠ 0 then
    (true,
     { s with m_last_image_path := "/tmp/sony_capture_" ++ toString ts ++ ".jpg" },
     [.sendCommand s.m_handle .down, .sleep 35, .sendCommand s.m_handle .up])
  else (false, s, [])

/-- `ProductionCamera::OnDisconnected` (lines 258-261), the vendor-thread
callback for a vendor-initiated disconnect: it clears `m_connected` and
touches nothing else — in particular `m_handle` keeps its value. -/
def prodOnDisconnected (_error : Nat) (s : ProdCamState) : ProdCamState :=
  { s with m_connected := false }

/-- `ProductionCamera::getModelName` (lines 237-247), the body run inside
`runInSdkContext`.  `readModel` models dereferencing a retained
camera-object-info pointer (`GetModel`), whose result the SDK owns. -/
def prodGetModelName (readModel : Ref → Option String) (s : ProdCamState) :
    String :=
  match s.m_info with
  | some r =>
      match readModel r with
      | some m => m
      | none => "No camera"
  | none => "No camera"

/-- `ProductionCameraWrapper::CaptureImage` (lines 317-336): throws if not
connected, otherwise runs `capture()` synchronously and immediately
resolves the deferred promise with `getLastImagePath()` (or rejects it) —
the promise is never left pending for a vendor event. -/
def prodWrapperCaptureImage (ts : Nat) (s : ProdCamState) :
    Except String PromiseState × ProdCamState × List VendorCall :=
  if s.m_connected then
    let r := prodCapture ts s
    if r.1 then
      (Except.ok (PromiseState.resolved r.2.1.m_last_image_path), r.2.1, r.2.2)
    else
      (Except.ok (PromiseState.rejected "Capture failed"), r.2.1, r.2.2)
  else (Except.error "Camera not connected", s, [])

/-! ## SDK runtime and directory context (sony-camera-production.cpp) -/

/-- The fixed SDK build directory `g_sdk_path` (line 21). -/
def sdkPath : String :=
  "/home/profusionai/CardMint/CrSDK_v2.00.00_20250805a_Linux64PC/build"

/-- Process-wide globals of sony-camera-production.cpp: `g_sdk_initialized`,
`g_original_path`, the process working directory, the adapter libraries
loaded so far, and how many times `SDK::Init` has been invoked. -/
structure SdkGlobal where
  g_sdk_initialized : Bool
  g_original_path : String
  cwd : String
  loadedLibs : List String
  vendorInitCount : Nat
deriving DecidableEq, Repr

/-- Outcomes of the four fallible steps inside `initializeSdkOnce`:
the three `dlopen` calls and `SDK::Init`. -/
structure InitEnv where
  coreLoads : Bool
  usbLoads : Bool
  libusbLoads : Bool
  sdkInitOk : Bool
deriving DecidableEq, Repr

/-- `initializeSdkOnce` (lines 42-91).  When `g_sdk_initialized` is already
set it returns `true` at once, touching nothing.  Otherwise it records the
original path, enters the SDK directory, loads the three adapter libraries,
and calls `SDK::Init`; every failure restores the original working
directory, while on success the SDK directory deliberately remains the
working directory (the source comment: keep SDK directory, DO NOT
restore). -/
def initSdkOnce (env : InitEnv) (g : SdkGlobal) : Bool × SdkGlobal :=
  if g.g_sdk_initialized then (true, g)
  else
    let g1 := { g with g_original_path := g.cwd, cwd := sdkPath }
    if env.coreLoads then
      let g2 := { g1 with loadedLibs := g1.loadedLibs ++ ["libCr_Core.so"] }
      if env.usbLoads then
        let g3 := { g2 with loadedLibs := g2.loadedLibs ++ ["libCr_PTP_USB.so"] }
        if env.libusbLoads then
          let g4 := { g3 with loadedLibs := g3.loadedLibs ++ ["libusb-1.0.so"],
                              vendorInitCount := g3.vendorInitCount + 1 }
          if env.sdkInitOk then (true, { g4 with g_sdk_initialized := true })
          else (false, { g4 with cwd := g4.g_original_path })
        else (false, { g3 with cwd := g3.g_original_path })
      else (false, { g2 with cwd := g2.g_original_path })
    else (false, { g1 with cwd := g1.g_original_path })

/-- `runInSdkContext` (lines 24-39): under the global SDK mutex it saves the
current working directory, enters `sdkPath`, runs the body, and restores
the saved directory on both the normal path and the catch path before
returning or rethrowing.  The body receives the directory it runs in and
may update camera state and emit vendor calls; a thrown exception is the
`Except.error` result value.  Both exits restore the entry directory, so
the returned directory is unconditionally the entry one, mirroring the two
`fs::current_path(current_path)` restore sites. -/
def runInSdkContext {σ β : Type} (body : String → σ → β × σ × List VendorCall)
    (cwd : String) (s : σ) : β × String × σ × List VendorCall :=
  let r := body sdkPath s
  (r.1, cwd, r.2.1, r.2.2)

/-- `ProductionCamera::listDevices` as called: the enumeration body wrapped
in `runInSdkContext`. -/
def prodListDevicesRun (enum : EnumOutcome) (cwd : String) (s : ProdCamState) :
    List (String × String) × String × ProdCamState × List VendorCall :=
  runInSdkContext (fun _ s => ((prodListDevices enum).1, s, (prodListDevices enum).2))
    cwd s

/-- `ProductionCamera::connect` as called: the connect body wrapped in
`runInSdkContext`. -/
def prodConnectRun (enum : EnumOutcome) (connectRes : Option Nat)
    (cwd : String) (s : ProdCamState) :
    Bool × String × ProdCamState × List VendorCall :=
  runInSdkContext (fun _ s => prodConnect enum connectRes s) cwd s

/-- `ProductionCamera::disconnect` as called: the disconnect body wrapped in
`runInSdkContext`. -/
def prodDisconnectRun (cwd : String) (s : ProdCamState) :
    Bool × String × ProdCamState × List VendorCall :=
  runInSdkContext (fun _ s => prodDisconnect s) cwd s

/-- `ProductionCamera::capture` as called: the capture body wrapped in
`runInSdkContext`. -/
def prodCaptureRun (ts : Nat) (cwd : String) (s : ProdCamState) :
    Bool × String × ProdCamState × List VendorCall :=
  runInSdkContext (fun _ s => prodCapture ts s) cwd s

/-- `ProductionCamera::getModelName` as called: the model-name body wrapped
in `runInSdkContext`. -/
def prodGetModelNameRun (readModel : Ref → Option String)
    (cwd : String) (s : ProdCamState) :
    String × String × ProdCamState × List VendorCall :=
  runInSdkContext (fun _ s => (prodGetModelName readModel s, s, [])) cwd s

/-- One module-level operation of sony-camera-production.cpp, carrying the
vendor outcomes it observes.  These are the operations that touch the
process-wide SDK state. -/
inductive CamOp where
  | initOp (env : InitEnv)
  | listDevicesOp (enum : EnumOutcome)
  | connectOp (enum : EnumOutcome) (connectRes : Option Nat)
  | disconnectOp
  | captureOp (ts : Nat)
  | getModelNameOp (readModel : Ref → Option String)

/-- Effect of one module-level operation on the process-wide globals and
the camera state. -/
def runOp (op : CamOp) (gs : SdkGlobal × ProdCamState) :
    SdkGlobal × ProdCamState :=
  match op, gs with
  | .initOp e, (g, s) => ((initSdkOnce e g).2, s)
  | .listDevicesOp enum, (g, s) =>
      let r := prodListDevicesRun enum g.cwd s
      ({ g with cwd := r.2.1 }, r.2.2.1)
  | .connectOp enum res, (g, s) =>
      let r := prodConnectRun enum res g.cwd s
      ({ g with cwd := r.2.1 }, r.2.2.1)
  | .disconnectOp, (g, s) =>
      let r := prodDisconnectRun g.cwd s
      ({ g with cwd := r.2.1 }, r.2.2.1)
  | .captureOp ts, (g, s) =>
      let r := prodCaptureRun ts g.cwd s
      ({ g with cwd := r.2.1 }, r.2.2.1)
  | .getModelNameOp rm, (g, s) =>
      let r := prodGetModelNameRun rm g.cwd s
      ({ g with cwd := r.2.1 }, r.2.2.1)

/-- A whole sequence of module-level operations, run left to right. -/
def runOps (ops : List CamOp) (gs : SdkGlobal × ProdCamState) :
    SdkGlobal × ProdCamState :=
  ops.foldl (fun gs op => runOp op gs) gs

/-! ## CameraWrapper::Impl (camera-wrapper.cpp) -/

/-- Member state of `CameraWrapper::Impl` in camera-wrapper.cpp:
`connected` and the retained `cameraList` of raw camera-object-info
pointers. -/
structure ImplState where
  connected : Bool
  cameraList : List Ref
deriving DecidableEq, Repr

/-- `CameraWrapper::Impl::EnumCameraObjectInfo` (lines 191-204): clears
`cameraList`, enumerates, and pushes the raw `GetCameraObjectInfo`
pointers into `cameraList`.  The function has no `Release` call on the
enumeration list. -/
def implEnumCameraObjectInfo (enum : EnumOutcome) (s : ImplState) :
    ImplState × List VendorCall :=
  let s0 := { s with cameraList := [] }
  match enum with
  | none => (s0, [.enumObjects])
  | some (lid, entries) =>
      ({ s0 with cameraList :=
           entries.enum.map fun p => Ref.vendorEntry lid p.1 },
       [VendorCall.enumObjects]
         ++ (entries.enum.map fun p => VendorCall.getCameraObjectInfo lid p.1))

/-- `CameraWrapper::Impl::Disconnect` (lines 55-61): clears `connected`
when set, and returns `true` on every call. -/
def implDisconnect (s : ImplState) : Bool × ImplState :=
  if s.connected then (true, { s with connected := false })
  else (true, s)

/-- `CameraWrapper::Impl::GetProperty` (lines 95-103): `nullopt` when not
connected, with no vendor call; the connected branch is a stub that also
returns `nullopt` without a vendor call. -/
def implGetProperty (_propertyName : String) (s : ImplState) :
    Option String × List VendorCall :=
  if s.connected then (none, [])
  else (none, [])

/-! ## Simplified CameraWrapper::Impl (camera-wrapper-simple.cpp) -/

/-- Member state of the simplified `CameraWrapper::Impl`. -/
structure SimpleImplState where
  connected : Bool
  liveViewActive : Bool
deriving DecidableEq, Repr

/-- The simplified `CameraWrapper::Impl::GetProperty` (lines 58-70):
`nullopt` when not connected; otherwise a mock table lookup.  No branch
issues a vendor call. -/
def simpleImplGetProperty (propertyName : String) (s : SimpleImplState) :
    Option String × List VendorCall :=
  if s.connected then
    if propertyName = "model" then (some "Sony ZV-E10M2", [])
    else if propertyName = "iso" then (some "100", [])
    else if propertyName = "aperture" then (some "f/2.8", [])
    else if propertyName = "shutter" then (some "1/125", [])
    else (none, [])
  else (none, [])

/-! ## CliCamera (sony-cli-wrapper.cpp) -/

/-- Member state of `CliCamera`: the retained info pointer, the owned copy
created by `CreateCameraObjectInfo`, the handle, and the connected flag. -/
structure CliCamState where
  m_info : Option Ref
  m_info_copy : Option Ref
  m_handle : Nat
  m_connected : Bool
deriving DecidableEq, Repr

/-- `CliCamera::listDevices` (lines 41-66): prints the device count and one
line per device (fields read out of the list before its release), releases
the list, and returns whether any device was present.  Failure prints
`DEVICES:0` like an empty listing — no error marker. -/
def cliListDevices (enum : EnumOutcome) :
    List String × Bool × List VendorCall :=
  match enum with
  | none => (["DEVICES:0"], false, [.enumObjects])
  | some (lid, entries) =>
      (("DEVICES:" ++ toString entries.length)
         :: entries.enum.map (fun p =>
              "DEVICE:" ++ toString p.1 ++ ":" ++ p.2.model ++ ":" ++ p.2.id),
       decide (0 < entries.length),
       [VendorCall.enumObjects]
         ++ (entries.enum.map fun p => VendorCall.getCameraObjectInfo lid p.1)
         ++ [VendorCall.releaseList lid])

/-- `CliCamera::connect` (lines 68-145).  It copies all fields of entry 0
through `SDK::CreateCameraObjectInfo` into the owned `m_info_copy`,
releases the enumeration list before connecting, connects using the copy,
and on failure releases the copy.  `copyOk` is whether
`CreateCameraObjectInfo` returned non-null. -/
def cliConnect (enum : EnumOutcome) (copyOk : Bool) (connectRes : Option Nat)
    (s : CliCamState) : Bool × CliCamState × List VendorCall :=
  if s.m_connected then (true, s, [])
  else
    match enum with
    | none => (false, s, [.enumObjects])
    | some (lid, entries) =>
        match entries with
        | [] => (false, s, [.enumObjects, .releaseList lid])
        | c :: _ =>
            let pre := [VendorCall.enumObjects,
                        VendorCall.getCameraObjectInfo lid 0,
                        VendorCall.createCameraObjectInfo c,
                        VendorCall.releaseList lid]
            if copyOk then
              let copy := Ref.ownedCopy c
              match connectRes with
              | some h =>
                  (true,
                   { s with m_info_copy := some copy, m_info := some copy,
                            m_handle := h, m_connected := true },
                   pre ++ [VendorCall.connectDevice copy])
              | none =>
                  (false, { s with m_info_copy := none },
                   pre ++ [VendorCall.connectDevice copy])
            else (false, { s with m_info_copy := none }, pre)

/-! ## SonyCameraWrapper (sony-sdk-wrapper.cpp) -/

/-- Member state of `SonyCameraWrapper`.  `m_capture_in_progress` is
declared at line 60 of the source; no statement of the file reads or
writes it. -/
structure SdkWrapState where
  m_device_handle : Nat
  m_connected : Bool
  m_capture_in_progress : Bool
deriving DecidableEq, Repr

/-- `SonyCameraWrapper::CaptureImage` (lines 187-217): throws if not
connected; otherwise sends the shutter-release command with parameter
Down, and when `CR_SUCCEEDED` sleeps 100 ms and resolves the promise with
a `/tmp/capture_<time>.jpg` path, else rejects it.  No shutter-Up command
is sent on any path, and `m_capture_in_progress` is not consulted. -/
def sdkWrapCaptureImage (sendOk : Bool) (ts : Nat) (s : SdkWrapState) :
    Except String PromiseState × SdkWrapState × List VendorCall :=
  if s.m_connected then
    if sendOk then
      (Except.ok (PromiseState.resolved ("/tmp/capture_" ++ toString ts ++ ".jpg")),
       s, [.sendCommand s.m_device_handle .down, .sleep 100])
    else
      (Except.ok (PromiseState.rejected "Capture failed"),
       s, [.sendCommand s.m_device_handle .down])
  else (Except.error "Camera not connected", s, [])

/-! ## SimpleCamera (simple-sony-binding.cpp) and SonyCamera
(sony-camera-binding.cpp) -/

/-- Member state shared in shape by `SimpleCamera` and by `SonyCamera` of
sony-camera-binding.cpp: info pointer, handle, connected flag. -/
structure SimpleCamState where
  m_info : Option Ref
  m_handle : Nat
  m_connected : Bool
deriving DecidableEq, Repr

/-- `SimpleCamera::capture` (lines 83-96): guard on `m_connected` and
`m_handle`, then shutter down, a literal 35 ms sleep, shutter up.  The
function takes no duration argument. -/
def simpleCapture (s : SimpleCamState) : Bool × SimpleCamState × List VendorCall :=
  if s.m_connected ∧ s.m_handle ≠ 0 then
    (true, s, [.sendCommand s.m_handle .down, .sleep 35, .sendCommand s.m_handle .up])
  else (false, s, [])

/-- `SonyCamera::CaptureImage` of sony-camera-binding.cpp (lines 188-224):
throws if not connected or no handle; sends shutter Down, and when
`CR_SUCCEEDED` sleeps the literal 35 ms, sends shutter Up and resolves the
promise with a synthesized path, else rejects. -/
def bindingCaptureImage (sendOk : Bool) (ts : Nat) (s : SimpleCamState) :
    Except String PromiseState × List VendorCall :=
  if s.m_connected ∧ s.m_handle ≠ 0 then
    if sendOk then
      (Except.ok (PromiseState.resolved ("/tmp/capture_" ++ toString ts ++ ".jpg")),
       [.sendCommand s.m_handle .down, .sleep 35, .sendCommand s.m_handle .up])
    else
      (Except.ok (PromiseState.rejected "Capture failed"),
       [.sendCommand s.m_handle .down])
  else (Except.error "Camera not connected", [])

/-! ## Shared concrete test fixtures -/

/-- A concrete enumerated camera entry. -/
def camA : CamFields :=
  { name := "ILCE-7M4", model := "ILCE-7M4", id := "0001", connectionTypeName := "USB" }

/-- A `ProductionCamera` in the connected state holding vendor handle 42. -/
def prodConnected42 : ProdCamState :=
  { prodInit with m_connected := true, m_handle := 42 }

/-- A `SonyCameraWrapper` (sony-sdk-wrapper.cpp) in the connected state
holding vendor handle 42. -/
def sdkWrapConnected42 : SdkWrapState :=
  { m_device_handle := 42, m_connected := true, m_capture_in_progress := false }

/-- A `SimpleCamera` / `SonyCamera` in the connected state holding vendor
handle 42. -/
def simpleConnected42 : SimpleCamState :=
  { m_info := none, m_handle := 42, m_connected := true }

/-! ## Claim theorems -/

/-- C1: the claim says every enumeration copies model, connection type and
raw id into owned memory before the vendor list is released, releases the
list before returning, and retains no pointer aliasing vendor enumeration
memory.  The code violates this at the cited sites: with one enumerated
device, `CameraWrapper::Impl::EnumCameraObjectInfo` retains the raw
entry-0 pointer in `cameraList` and its vendor-call trace contains no
release of the enumeration list, and `ProductionCamera::connect` retains
the raw entry-0 pointer in `m_info` even though its trace does release the
list, leaving `m_info` aliasing released vendor memory. -/
theorem enum_aliasing_retained_after_release :
    (implEnumCameraObjectInfo (some (0, [camA])) ⟨false, []⟩).1.cameraList
        = [Ref.vendorEntry 0 0]
  ∧ VendorCall.releaseList 0 ∉
      (implEnumCameraObjectInfo (some (0, [camA])) ⟨false, []⟩).2
  ∧ (prodConnect (some (0, [camA])) (some 42) prodInit).2.1.m_info
        = some (Ref.vendorEntry 0 0)
  ∧ VendorCall.releaseList 0 ∈
      (prodConnect (some (0, [camA])) (some 42) prodInit).2.2 := by
  decide

/-- C2: the claim says a second capture call on a session with one capture
in flight returns BusyError at once and sends no vendor command.  In
`ProductionCamera::capture` a second call (serialized after the first by
the SDK mutex) returns `true` and again sends the full shutter command
pair; no busy-rejection path exists in the code. -/
theorem second_capture_proceeds_without_busy_error :
    (prodCapture 1 prodConnected42).1 = true
  ∧ (prodCapture 2 (prodCapture 1 prodConnected42).2.1).1 = true
  ∧ VendorCall.sendCommand 42 CrCommandParam.down ∈
      (prodCapture 2 (prodCapture 1 prodConnected42).2.1).2.2
  ∧ VendorCall.sendCommand 42 CrCommandParam.up ∈
      (prodCapture 2 (prodCapture 1 prodConnected42).2.1).2.2 := by
  decide

/-- C3: the claim says every capture on a connected session sends shutter
Down, waits exactly 35 ms, then sends shutter Up.  Three of the cited
implementations do exactly that (their capture functions take no duration
argument, so the 35 is a fixed source literal), but
`SonyCameraWrapper::CaptureImage` of sony-sdk-wrapper.cpp sends only the
Down command and sleeps 100 ms: no shutter-Up command and no 35 ms wait
occur in its trace. -/
theorem sdk_wrapper_capture_missing_shutter_up :
    (prodCapture 7 prodConnected42).2.2
      = [VendorCall.sendCommand 42 CrCommandParam.down, VendorCall.sleep 35,
         VendorCall.sendCommand 42 CrCommandParam.up]
  ∧ (simpleCapture simpleConnected42).2.2
      = [VendorCall.sendCommand 42 CrCommandParam.down, VendorCall.sleep 35,
         VendorCall.sendCommand 42 CrCommandParam.up]
  ∧ (bindingCaptureImage true 7 simpleConnected42).2
      = [VendorCall.sendCommand 42 CrCommandParam.down, VendorCall.sleep 35,
         VendorCall.sendCommand 42 CrCommandParam.up]
  ∧ (sdkWrapCaptureImage true 7 sdkWrapConnected42).2.2
      = [VendorCall.sendCommand 42 CrCommandParam.down, VendorCall.sleep 100]
  ∧ VendorCall.sendCommand 42 CrCommandParam.up ∉
      (sdkWrapCaptureImage true 7 sdkWrapConnected42).2.2
  ∧ VendorCall.sleep 35 ∉ (sdkWrapCaptureImage true 7 sdkWrapConnected42).2.2 := by
  decide

/-- C4 counterexample: the claim says the second of two consecutive
disconnect calls returns the same terminal outcome as the first.  On a
connected `ProductionCamera` the first call returns `true` and the second
returns `false`. -/
theorem disconnect_second_call_outcome_differs :
    (prodDisconnect prodConnected42).1 = true
  ∧ (prodDisconnect (prodDisconnect prodConnected42).2.1).1 = false := by
  decide

/-- C4 amended: from a connected state the first disconnect releases the
vendor handle (`SDK::Disconnect` then `SDK::ReleaseDevice`), zeroes it,
and returns `true`; the second call is a no-op that issues no vendor call
and leaves the state unchanged, but returns `false` rather than the first
call's outcome.  `CameraWrapper::Impl::Disconnect`, by contrast, returns
`true` on both calls. -/
theorem disconnect_idempotent_no_double_release :
    (∀ s : ProdCamState, s.m_connected = true → s.m_handle ≠ 0 →
        (prodDisconnect s).1 = true
      ∧ (prodDisconnect s).2.1.m_handle = 0
      ∧ (prodDisconnect s).2.1.m_connected = false
      ∧ (prodDisconnect s).2.2
          = [VendorCall.disconnectDevice s.m_handle, VendorCall.releaseDevice s.m_handle]
      ∧ (prodDisconnect (prodDisconnect s).2.1).1 = false
      ∧ (prodDisconnect (prodDisconnect s).2.1).2.1 = (prodDisconnect s).2.1
      ∧ (prodDisconnect (prodDisconnect s).2.1).2.2 = [])
  ∧ (∀ i : ImplState,
        (implDisconnect i).1 = true ∧ (implDisconnect (implDisconnect i).2).1 = true) := by
  constructor
  · intro s h1 h2
    simp [prodDisconnect, h1, h2]
  · intro i
    cases hc : i.connected <;> simp [implDisconnect, hc]

/-- C4 witness: the amended statement applied to a concrete connected
camera. -/
theorem disconnect_idempotent_no_double_release_witness :
    (prodDisconnect prodConnected42).1 = true
  ∧ (implDisconnect (⟨true, []⟩ : ImplState)).1 = true :=
  ⟨(disconnect_idempotent_no_double_release.1 prodConnected42 rfl (by decide)).1,
   (disconnect_idempotent_no_double_release.2 ⟨true, []⟩).1⟩

/-- C5: the claim says a capture whose shutter commands were sent is
resolved only by a later vendor file-captured event or vendor error event.
`ProductionCameraWrapper::CaptureImage` instead resolves the promise
before returning, with a path synthesized from the wall-clock timestamp;
no vendor event is consumed (the model takes no event input because
`ProductionCamera` implements no file-captured callback at all). -/
theorem capture_promise_resolved_synchronously :
    prodWrapperCaptureImage 1000 prodConnected42
      = (Except.ok (PromiseState.resolved "/tmp/sony_capture_1000.jpg"),
         { prodConnected42 with m_last_image_path := "/tmp/sony_capture_1000.jpg" },
         [VendorCall.sendCommand 42 CrCommandParam.down, VendorCall.sleep 35,
          VendorCall.sendCommand 42 CrCommandParam.up]) := by
  rfl

/-- C6: the claim says the vendor handle is zero whenever the session is
not connected, in particular after a vendor-initiated disconnect event.
After a successful connect (handle 42) followed by the vendor
`OnDisconnected` callback, `m_connected` is `false` yet `m_handle` is
still 42 — and `disconnect()` then refuses to release it, since it
requires `m_connected`. -/
theorem handle_retained_after_vendor_disconnect :
    (prodConnect (some (0, [camA])) (some 42) prodInit).1 = true
  ∧ (prodConnect (some (0, [camA])) (some 42) prodInit).2.1.m_connected = true
  ∧ (prodConnect (some (0, [camA])) (some 42) prodInit).2.1.m_handle = 42
  ∧ (prodOnDisconnected 1 (prodConnect (some (0, [camA])) (some 42) prodInit).2.1).m_connected
      = false
  ∧ (prodOnDisconnected 1 (prodConnect (some (0, [camA])) (some 42) prodInit).2.1).m_handle
      = 42
  ∧ (prodDisconnect
       (prodOnDisconnected 1 (prodConnect (some (0, [camA])) (some 42) prodInit).2.1)).2.2
      = [] := by
  decide

/-- C7: for every property name, `GetProperty` on a session that is not
connected returns the absent value (`nullopt`) — not an error — and
issues no vendor call, in both cited implementations. -/
theorem getProperty_not_connected_absent :
    ∀ (propertyName : String) (s1 : SimpleImplState) (s2 : ImplState),
      s1.connected = false → s2.connected = false →
      simpleImplGetProperty propertyName s1 = (none, [])
      ∧ implGetProperty propertyName s2 = (none, []) := by
  intro n s1 s2 h1 h2
  exact ⟨by simp [simpleImplGetProperty, h1], by simp [implGetProperty, h2]⟩

/-- C7 witness: a concrete disconnected query. -/
theorem getProperty_not_connected_absent_witness :
    simpleImplGetProperty "iso" ⟨false, false⟩ = (none, [])
    ∧ implGetProperty "iso" ⟨false, []⟩ = (none, []) :=
  getProperty_not_connected_absent "iso" ⟨false, false⟩ ⟨false, []⟩ rfl rfl

/-- C8: a successful vendor enumeration with zero devices yields an empty
device sequence and no error: `ProductionCamera::listDevices` returns the
empty vector (after releasing the list), the surrounding NAPI
`ListDevices` never throws for any enumeration outcome, and
`CliCamera::listDevices` prints the empty listing `DEVICES:0` with no
error line. -/
theorem listDevices_zero_devices_empty_not_error :
    prodListDevices (some (0, []))
      = ([], [VendorCall.enumObjects, VendorCall.releaseList 0])
  ∧ (∀ enum : EnumOutcome, ∃ ds, prodWrapperListDevices enum = Except.ok ds)
  ∧ cliListDevices (some (0, []))
      = (["DEVICES:0"], false, [VendorCall.enumObjects, VendorCall.releaseList 0]) := by
  refine ⟨by decide, fun enum => ⟨_, rfl⟩, by decide⟩

/-- Helper for C9: one module-level operation preserves the invariant that
the SDK is initialized and the working directory is the SDK directory. -/
theorem runOp_preserves_sdk_invariant (op : CamOp) (g : SdkGlobal) (s : ProdCamState)
    (h1 : g.g_sdk_initialized = true) (h2 : g.cwd = sdkPath) :
    (runOp op (g, s)).1.g_sdk_initialized = true
    ∧ (runOp op (g, s)).1.cwd = sdkPath := by
  cases op <;>
    simp [runOp, initSdkOnce, prodListDevicesRun, prodConnectRun, prodDisconnectRun,
          prodCaptureRun, prodGetModelNameRun, runInSdkContext, h1, h2]

/-- Helper for C9: the invariant extends to arbitrary operation
sequences. -/
theorem runOps_preserves_sdk_invariant (ops : List CamOp) :
    ∀ (g : SdkGlobal) (s : ProdCamState),
      g.g_sdk_initialized = true → g.cwd = sdkPath →
      (runOps ops (g, s)).1.g_sdk_initialized = true
      ∧ (runOps ops (g, s)).1.cwd = sdkPath := by
  induction ops with
  | nil => intro g s h1 h2; exact ⟨h1, h2⟩
  | cons op rest ih =>
      intro g s h1 h2
      obtain ⟨p1, p2⟩ := runOp_preserves_sdk_invariant op g s h1 h2
      exact ih (runOp op (g, s)).1 (runOp op (g, s)).2 p1 p2

/-- C9: `initializeSdkOnce` is idempotent — once `g_sdk_initialized` is
set, every later call returns `true` and leaves the entire global state
(loaded libraries, vendor init count, working directory) unchanged; a
first successful initialization leaves the working directory at the SDK
directory; and across any subsequent sequence of module operations
(further init calls, listDevices, connect, disconnect, capture,
getModelName) the working directory remains the SDK directory. -/
theorem sdk_init_idempotent_and_cwd_persistent :
    (∀ (e : InitEnv) (g : SdkGlobal), g.g_sdk_initialized = true →
        initSdkOnce e g = (true, g))
  ∧ (∀ (e : InitEnv) (g : SdkGlobal), g.g_sdk_initialized = false →
        (initSdkOnce e g).1 = true →
        (initSdkOnce e g).2.cwd = sdkPath
        ∧ (initSdkOnce e g).2.g_sdk_initialized = true)
  ∧ (∀ (ops : List CamOp) (g : SdkGlobal) (s : ProdCamState),
        g.g_sdk_initialized = true → g.cwd = sdkPath →
        (runOps ops (g, s)).1.g_sdk_initialized = true
        ∧ (runOps ops (g, s)).1.cwd = sdkPath) := by
  refine ⟨?_, ?_, fun ops g s h1 h2 => runOps_preserves_sdk_invariant ops g s h1 h2⟩
  · intro e g h
    simp [initSdkOnce, h]
  · rintro ⟨c, u, l, i⟩ g h0 h1
    cases c <;> cases u <;> cases l <;> cases i <;>
      simp_all [initSdkOnce]

/-- C9 witness: a second init call on an already-initialized global state
is the identity. -/
theorem sdk_init_idempotent_and_cwd_persistent_witness :
    initSdkOnce ⟨true, true, true, true⟩
        ⟨true, "/", sdkPath, ["libCr_Core.so", "libCr_PTP_USB.so", "libusb-1.0.so"], 1⟩
      = (true,
         ⟨true, "/", sdkPath, ["libCr_Core.so", "libCr_PTP_USB.so", "libusb-1.0.so"], 1⟩) :=
  sdk_init_idempotent_and_cwd_persistent.1 ⟨true, true, true, true⟩
    ⟨true, "/", sdkPath, ["libCr_Core.so", "libCr_PTP_USB.so", "libusb-1.0.so"], 1⟩ rfl

/-- C10: `runInSdkContext` returns with the working directory restored to
its entry value for every wrapped body — including a body that throws —
and hence each of the five public operations wrapped in it (listDevices,
connect, disconnect, capture, getModelName) preserves the working
directory. -/
theorem sdk_context_restores_cwd :
    (∀ (σ β : Type) (body : String → σ → β × σ × List VendorCall)
        (cwd : String) (s : σ), (runInSdkContext body cwd s).2.1 = cwd)
  ∧ (∀ (enum : EnumOutcome) (cwd : String) (s : ProdCamState),
        (prodListDevicesRun enum cwd s).2.1 = cwd)
  ∧ (∀ (enum : EnumOutcome) (res : Option Nat) (cwd : String) (s : ProdCamState),
        (prodConnectRun enum res cwd s).2.1 = cwd)
  ∧ (∀ (cwd : String) (s : ProdCamState), (prodDisconnectRun cwd s).2.1 = cwd)
  ∧ (∀ (ts : Nat) (cwd : String) (s : ProdCamState),
        (prodCaptureRun ts cwd s).2.1 = cwd)
  ∧ (∀ (rm : Ref → Option String) (cwd : String) (s : ProdCamState),
        (prodGetModelNameRun rm cwd s).2.1 = cwd)
  ∧ (∀ (cwd : String) (s : ProdCamState),
        (runInSdkContext
          (fun _ s => ((Except.error "SDK failure" : Except String Bool), s, []))
          cwd s).2.1 = cwd) :=
  ⟨fun _ _ _ _ _ => rfl, fun _ _ _ => rfl, fun _ _ _ _ => rfl, fun _ _ => rfl,
   fun _ _ _ => rfl, fun _ _ _ => rfl, fun _ _ => rfl⟩

end CardMint
